import Mathlib

/-!
Verification of the dualsense-rainbow lightbar driver (src/main.rs).

The development embeds the pure core of the program:
the CRC-32 checksum engine (`calculate_crc32`, `generate_crc32_table`),
the HID report encoders for USB and Bluetooth implicit in
`DualSenseController::set_lightbar`, the session bookkeeping of
`set_lightbar` / `get_stats`, and the hue band labelling of
`get_color_name`.  Rust `u32` arithmetic is embedded into `Nat`: every
intermediate value of the CRC computation stays below `2 ^ 32` (xor and
right shifts cannot grow past the larger operand's width), so the only
operation needing care is the final `!crc`, which on `u32` is exactly
`crc ^^^ 0xFFFFFFFF`.  The external HID transport is modelled as an
oracle: the outcome of `device.write` is a `Bool` parameter.
-/

namespace DualsenseRainbow

/-- One round of the inner bit loop of `generate_crc32_table`
(src/main.rs lines 143-150): if the low bit of the running value is
set, shift right by one and xor in the polynomial `0xEDB88320`,
otherwise just shift right. -/
def crc32_round (crc : Nat) : Nat :=
  if crc &&& 1 != 0 then (crc >>> 1) ^^^ 0xEDB88320 else crc >>> 1

/-- `generate_crc32_table` (src/main.rs lines 137-155): entry `i` of the
256-entry table is eight `crc32_round` iterations applied to `i`. -/
def generate_crc32_table : List Nat :=
  (List.range 256).map (fun i => crc32_round^[8] i)

/-- `calculate_crc32` (src/main.rs lines 126-135): seed `0xFFFFFFFF`,
table-driven byte-at-a-time reduction, final bit inversion (`!crc` on
`u32`, i.e. xor with `0xFFFFFFFF`). -/
def calculate_crc32 (data : List Nat) : Nat :=
  (data.foldl
    (fun crc byte => (crc >>> 8) ^^^ generate_crc32_table.getD ((crc ^^^ byte) &&& 0xFF) 0)
    0xFFFFFFFF) ^^^ 0xFFFFFFFF

/-- Specification-side single bit step of the standard reflected CRC-32
(polynomial `0xEDB88320`): stated with `% 2` in place of the source's
`&&& 1` test. -/
def crc32_spec_bit (crc : Nat) : Nat :=
  if crc % 2 = 1 then (crc >>> 1) ^^^ 0xEDB88320 else crc >>> 1

/-- Specification-side standard CRC-32 (the claim's words): polynomial
`0xEDB88320`, initial value `0xFFFFFFFF`, each byte xored into the low
bits and reduced bit by bit, final bitwise inversion.  This is the
zlib/PNG CRC-32 definition, written without the lookup table. -/
def crc32_spec (data : List Nat) : Nat :=
  (data.foldl (fun crc b => crc32_spec_bit^[8] (crc ^^^ b)) 0xFFFFFFFF) ^^^ 0xFFFFFFFF

lemma crc32_round_eq_spec_bit : crc32_round = crc32_spec_bit := by
  funext c
  unfold crc32_round crc32_spec_bit
  rw [Nat.and_one_is_mod]
  rcases Nat.mod_two_eq_zero_or_one c with h | h <;> simp [h]

lemma xor_shiftRight (a b n : Nat) : (a ^^^ b) >>> n = (a >>> n) ^^^ (b >>> n) := by
  apply Nat.eq_of_testBit_eq
  intro i
  simp [Nat.testBit_shiftRight, Nat.testBit_xor]

lemma xor_left_comm (a b c : Nat) : a ^^^ (b ^^^ c) = b ^^^ (a ^^^ c) := by
  rw [← Nat.xor_assoc, Nat.xor_comm a b, Nat.xor_assoc]

lemma crc32_spec_bit_xor (a b : Nat) :
    crc32_spec_bit (a ^^^ b) = crc32_spec_bit a ^^^ crc32_spec_bit b := by
  have hab : (a ^^^ b) % 2 = a % 2 ^^^ b % 2 := by
    rw [← Nat.and_one_is_mod (a ^^^ b), Nat.and_xor_distrib_right,
      Nat.and_one_is_mod, Nat.and_one_is_mod]
  unfold crc32_spec_bit
  rcases Nat.mod_two_eq_zero_or_one a with ha | ha <;>
    rcases Nat.mod_two_eq_zero_or_one b with hb | hb <;>
    simp [ha, hb, hab, xor_shiftRight, Nat.xor_assoc, Nat.xor_comm, xor_left_comm]

lemma iterate_spec_bit_xor (n a b : Nat) :
    crc32_spec_bit^[n] (a ^^^ b) = crc32_spec_bit^[n] a ^^^ crc32_spec_bit^[n] b := by
  induction n generalizing a b with
  | zero => rfl
  | succ n ih =>
    rw [Function.iterate_succ_apply, Function.iterate_succ_apply,
      Function.iterate_succ_apply, crc32_spec_bit_xor, ih]

lemma iterate_spec_bit_shiftLeft (n a : Nat) : crc32_spec_bit^[n] (a <<< n) = a := by
  induction n generalizing a with
  | zero => simp
  | succ n ih =>
    rw [Function.iterate_succ_apply]
    have hmod : a <<< (n + 1) % 2 = 0 := by
      rw [Nat.shiftLeft_eq, pow_succ, ← Nat.mul_assoc]
      exact Nat.mul_mod_left _ 2
    have hstep : crc32_spec_bit (a <<< (n + 1)) = a <<< n := by
      unfold crc32_spec_bit
      rw [if_neg (by omega)]
      rw [Nat.shiftLeft_eq, Nat.shiftLeft_eq, Nat.shiftRight_succ, Nat.shiftRight_zero,
        pow_succ, ← Nat.mul_assoc]
      exact Nat.mul_div_cancel _ (by norm_num)
    rw [hstep, ih]

lemma shiftRight_shiftLeft_xor_mod (x : Nat) : (x >>> 8) <<< 8 ^^^ (x &&& 255) = x := by
  apply Nat.eq_of_testBit_eq
  intro i
  have h255 : (255 : Nat) = 2 ^ 8 - 1 := by norm_num
  simp only [Nat.testBit_xor, Nat.testBit_shiftLeft, Nat.testBit_shiftRight,
    Nat.testBit_and, h255, Nat.testBit_two_pow_sub_one]
  by_cases h : 8 ≤ i
  · have : 8 + (i - 8) = i := by omega
    simp [h, this, Nat.not_lt_of_le h]
  · simp [h, Nat.lt_of_not_le h]

lemma iterate_spec_bit_eight (x : Nat) :
    crc32_spec_bit^[8] x = (x >>> 8) ^^^ crc32_spec_bit^[8] (x &&& 255) := by
  conv_lhs => rw [← shiftRight_shiftLeft_xor_mod x]
  rw [iterate_spec_bit_xor, iterate_spec_bit_shiftLeft]

lemma generate_crc32_table_getD (i : Nat) (h : i < 256) :
    generate_crc32_table.getD i 0 = crc32_spec_bit^[8] i := by
  unfold generate_crc32_table
  rw [crc32_round_eq_spec_bit]
  simp [List.getD_eq_getElem?_getD, List.getElem?_map, List.getElem?_range h]

lemma calculate_step_eq (crc b : Nat) (hb : b < 256) :
    (crc >>> 8) ^^^ generate_crc32_table.getD ((crc ^^^ b) &&& 0xFF) 0
      = crc32_spec_bit^[8] (crc ^^^ b) := by
  have hidx : (crc ^^^ b) &&& 0xFF < 256 :=
    Nat.lt_of_le_of_lt Nat.and_le_right (by norm_num)
  rw [generate_crc32_table_getD _ hidx, iterate_spec_bit_eight (crc ^^^ b), xor_shiftRight]
  have hb8 : b >>> 8 = 0 := by
    rw [Nat.shiftRight_eq_div_pow]
    exact Nat.div_eq_of_lt (by omega)
  rw [hb8, Nat.xor_zero]

lemma calculate_crc32_fold_eq (data : List Nat) (h : ∀ b ∈ data, b < 256) : ∀ crc,
    data.foldl
      (fun crc byte => (crc >>> 8) ^^^ generate_crc32_table.getD ((crc ^^^ byte) &&& 0xFF) 0)
      crc
      = data.foldl (fun crc b => crc32_spec_bit^[8] (crc ^^^ b)) crc := by
  induction data with
  | nil => intro crc; rfl
  | cons b t ih =>
    intro crc
    simp only [List.foldl_cons]
    rw [calculate_step_eq crc b (h b (List.mem_cons_self b t))]
    exact ih (fun x hx => h x (List.mem_cons_of_mem _ hx)) _

lemma calculate_crc32_eq_spec (data : List Nat) (h : ∀ b ∈ data, b < 256) :
    calculate_crc32 data = crc32_spec data := by
  unfold calculate_crc32 crc32_spec
  rw [calculate_crc32_fold_eq data h]

/-- Claim C1: `calculate_crc32` computes the standard CRC-32 (polynomial
`0xEDB88320`, initial value `0xFFFFFFFF`, table-driven byte-at-a-time
reduction, final bitwise inversion) for every byte sequence, and on the
ASCII bytes of the string of digits 1 through 9 (49..57) it returns
`0xCBF43926`. -/
theorem calculate_crc32_standard :
    (∀ data : List Nat, (∀ b ∈ data, b < 256) → calculate_crc32 data = crc32_spec data) ∧
    calculate_crc32 [49, 50, 51, 52, 53, 54, 55, 56, 57] = 0xCBF43926 := by
  refine ⟨fun data h => calculate_crc32_eq_spec data h, ?_⟩
  decide

/-- Concrete instantiation of `calculate_crc32_standard` on the ASCII
bytes of the nine digits, discharging the byte-range hypothesis. -/
theorem calculate_crc32_standard_witness :
    (∀ b ∈ [49, 50, 51, 52, 53, 54, 55, 56, 57], b < 256) ∧
      calculate_crc32 [49, 50, 51, 52, 53, 54, 55, 56, 57]
        = crc32_spec [49, 50, 51, 52, 53, 54, 55, 56, 57] :=
  ⟨by decide, calculate_crc32_standard.1 [49, 50, 51, 52, 53, 54, 55, 56, 57] (by decide)⟩

/-- USB report construction inside `set_lightbar` (src/main.rs lines
71-86): a 48-byte zero buffer with the report id, the two flag bytes and
the RGB channels written at their offsets. -/
def usbReport (r g b : Nat) : List Nat :=
  ((((((List.replicate 48 0).set 0 0x02).set 1 0xFF).set 2 0xF7).set 45 r).set 46 g).set 47 b

/-- Bluetooth report before the CRC trailer is written (src/main.rs
lines 88-97): a 78-byte zero buffer with the report id, the flag bytes
and the RGB channels written at their offsets. -/
def btReportPreCrc (r g b : Nat) : List Nat :=
  (((((((List.replicate 78 0).set 0 0x31).set 1 0x02).set 2 0xFF).set 3 0xF7).set 47 r).set
      48 g).set 49 b

/-- Full Bluetooth report (src/main.rs lines 99-104): the CRC-32 of the
first 74 bytes of the pre-trailer report, written little-endian into
bytes 74..77. -/
def btReport (r g b : Nat) : List Nat :=
  let pre := btReportPreCrc r g b
  let crc := calculate_crc32 (pre.take 74)
  (((pre.set 74 (crc &&& 0xFF)).set 75 ((crc >>> 8) &&& 0xFF)).set
      76 ((crc >>> 16) &&& 0xFF)).set 77 ((crc >>> 24) &&& 0xFF)

/-- Claim C4: the USB report is 48 bytes, byte 0 is `0x02`, byte 1 is
`0xFF`, byte 2 is `0xF7`, bytes 45..47 carry r, g, b, and every other
byte is zero. -/
theorem usbReport_layout (r g b : Nat) :
    (usbReport r g b).length = 48 ∧
    (usbReport r g b).getD 0 0 = 0x02 ∧
    (usbReport r g b).getD 1 0 = 0xFF ∧
    (usbReport r g b).getD 2 0 = 0xF7 ∧
    (usbReport r g b).getD 45 0 = r ∧
    (usbReport r g b).getD 46 0 = g ∧
    (usbReport r g b).getD 47 0 = b ∧
    ∀ i, i < 48 → i ∉ ([0, 1, 2, 45, 46, 47] : List Nat) → (usbReport r g b).getD i 0 = 0 := by
  refine ⟨rfl, rfl, rfl, rfl, rfl, rfl, rfl, ?_⟩
  intro i hi hmem
  interval_cases i <;> first | rfl | exact absurd (by decide) hmem

/-- Concrete instantiation of `usbReport_layout` at color (10, 20, 30)
and index 10, discharging both hypotheses of the zero-byte clause. -/
theorem usbReport_layout_witness :
    10 < 48 ∧ (10 : Nat) ∉ ([0, 1, 2, 45, 46, 47] : List Nat) ∧
      (usbReport 10 20 30).getD 10 0 = 0 :=
  ⟨by decide, by decide,
    (usbReport_layout 10 20 30).2.2.2.2.2.2.2 10 (by decide) (by decide)⟩

set_option maxHeartbeats 2000000 in
/-- Claim C2: the Bluetooth report is 78 bytes, byte 0 is `0x31`, byte 1
is `0x02`, byte 2 is `0xFF`, byte 3 is `0xF7`, bytes 47..49 carry r, g,
b, and every byte other than those and the checksum trailer 74..77 is
zero. -/
theorem btReport_layout (r g b : Nat) :
    (btReport r g b).length = 78 ∧
    (btReport r g b).getD 0 0 = 0x31 ∧
    (btReport r g b).getD 1 0 = 0x02 ∧
    (btReport r g b).getD 2 0 = 0xFF ∧
    (btReport r g b).getD 3 0 = 0xF7 ∧
    (btReport r g b).getD 47 0 = r ∧
    (btReport r g b).getD 48 0 = g ∧
    (btReport r g b).getD 49 0 = b ∧
    ∀ i, i < 78 → i ∉ ([0, 1, 2, 3, 47, 48, 49, 74, 75, 76, 77] : List Nat) →
      (btReport r g b).getD i 0 = 0 := by
  refine ⟨rfl, rfl, rfl, rfl, rfl, rfl, rfl, rfl, ?_⟩
  intro i hi hmem
  interval_cases i <;> first | rfl | exact absurd (by decide) hmem

/-- Concrete instantiation of `btReport_layout` at color (10, 20, 30)
and index 50, discharging both hypotheses of the zero-byte clause. -/
theorem btReport_layout_witness :
    50 < 78 ∧ (50 : Nat) ∉ ([0, 1, 2, 3, 47, 48, 49, 74, 75, 76, 77] : List Nat) ∧
      (btReport 10 20 30).getD 50 0 = 0 :=
  ⟨by decide, by decide,
    (btReport_layout 10 20 30).2.2.2.2.2.2.2.2 50 (by decide) (by decide)⟩

lemma and_255_eq_mod (x : Nat) : x &&& 0xFF = x % 2 ^ 8 := by
  simpa using Nat.and_pow_two_sub_one_eq_mod x 8

/-- Claim C3: in the Bluetooth report, bytes 74..77 are the CRC-32 of
bytes [0,74) of that same report (unchanged by writing the trailer),
encoded little-endian with byte 74 the least-significant byte. -/
theorem btReport_checksum (r g b : Nat) :
    (btReport r g b).getD 74 0 = calculate_crc32 ((btReport r g b).take 74) % 2 ^ 8 ∧
    (btReport r g b).getD 75 0 = calculate_crc32 ((btReport r g b).take 74) / 2 ^ 8 % 2 ^ 8 ∧
    (btReport r g b).getD 76 0 = calculate_crc32 ((btReport r g b).take 74) / 2 ^ 16 % 2 ^ 8 ∧
    (btReport r g b).getD 77 0 = calculate_crc32 ((btReport r g b).take 74) / 2 ^ 24 % 2 ^ 8 := by
  have htake : (btReport r g b).take 74 = (btReportPreCrc r g b).take 74 := rfl
  have e74 : (btReport r g b).getD 74 0
      = calculate_crc32 ((btReportPreCrc r g b).take 74) &&& 0xFF := rfl
  have e75 : (btReport r g b).getD 75 0
      = (calculate_crc32 ((btReportPreCrc r g b).take 74) >>> 8) &&& 0xFF := rfl
  have e76 : (btReport r g b).getD 76 0
      = (calculate_crc32 ((btReportPreCrc r g b).take 74) >>> 16) &&& 0xFF := rfl
  have e77 : (btReport r g b).getD 77 0
      = (calculate_crc32 ((btReportPreCrc r g b).take 74) >>> 24) &&& 0xFF := rfl
  rw [htake, e74, e75, e76, e77, and_255_eq_mod, and_255_eq_mod, and_255_eq_mod,
    and_255_eq_mod, Nat.shiftRight_eq_div_pow, Nat.shiftRight_eq_div_pow,
    Nat.shiftRight_eq_div_pow]
  exact ⟨rfl, rfl, rfl, rfl⟩

/-- State of `DualSenseController` (src/main.rs lines 23-29).  The
`HidDevice` handle is the external transport and is not part of the
state; the remaining fields are embedded directly. -/
structure DualSenseController where
  usb_mode : Bool
  last_color : Nat × Nat × Nat
  send_count : Nat
  error_count : Nat
deriving DecidableEq

/-- Outcome of one `set_lightbar` call: the controller state afterwards,
whether the call returned `Ok`, whether `device.write` was invoked, and
the report handed to the transport (`none` when the call was skipped by
the de-duplication check). -/
structure SetLightbarOutcome where
  ctrl : DualSenseController
  ok : Bool
  wrote : Bool
  report : Option (List Nat)
deriving DecidableEq

/-- `DualSenseController::new` (src/main.rs lines 56-62): device
discovery is external; `usb_mode` is true exactly when the reported
interface number is 3.  The tracked last color starts at (0, 0, 0) and
both counters start at 0. -/
def DualSenseController.new (usb_mode : Bool) : DualSenseController :=
  ⟨usb_mode, (0, 0, 0), 0, 0⟩

/-- `DualSenseController::set_lightbar` (src/main.rs lines 65-118).  The
outcome of the external `device.write` call is the oracle parameter
`writeOk`. -/
def DualSenseController.set_lightbar (c : DualSenseController) (writeOk : Bool)
    (r g b : Nat) : SetLightbarOutcome :=
  if (r, g, b) = c.last_color then
    ⟨c, true, false, none⟩
  else
    let report := if c.usb_mode then usbReport r g b else btReport r g b
    if writeOk then
      ⟨{ c with last_color := (r, g, b), send_count := c.send_count + 1 }, true, true,
        some report⟩
    else
      ⟨{ c with error_count := c.error_count + 1 }, false, true, some report⟩

/-- `DualSenseController::get_stats` (src/main.rs lines 120-122). -/
def DualSenseController.get_stats (c : DualSenseController) : Nat × Nat :=
  (c.send_count, c.error_count)

/-- Fold a sequence of `set_lightbar` calls, each given as (write
outcome, r, g, b), over a controller state. -/
def runCalls (c : DualSenseController) : List (Bool × Nat × Nat × Nat) → DualSenseController
  | [] => c
  | (w, r, g, b) :: rest => runCalls ((c.set_lightbar w r g b).ctrl) rest

/-- Claim C5: a call whose color equals the tracked last-applied color
returns `Ok` at once, with no report encoded and no transport write, and
leaves the state untouched; consequently two consecutive calls with the
same (fresh) color and a succeeding write perform exactly one transport
write, increment `send_count` by exactly 1, and leave `error_count`
unchanged. -/
theorem set_lightbar_dedup (c : DualSenseController) (w : Bool) (r g b : Nat) :
    ((r, g, b) = c.last_color → c.set_lightbar w r g b = ⟨c, true, false, none⟩) ∧
    ((r, g, b) ≠ c.last_color →
      (c.set_lightbar true r g b).wrote = true ∧
      (c.set_lightbar true r g b).ok = true ∧
      ((c.set_lightbar true r g b).ctrl.set_lightbar w r g b).wrote = false ∧
      ((c.set_lightbar true r g b).ctrl.set_lightbar w r g b).ok = true ∧
      ((c.set_lightbar true r g b).ctrl.set_lightbar w r g b).ctrl.send_count
        = c.send_count + 1 ∧
      ((c.set_lightbar true r g b).ctrl.set_lightbar w r g b).ctrl.error_count
        = c.error_count) := by
  constructor
  · intro h
    simp [DualSenseController.set_lightbar, h]
  · intro h
    simp [DualSenseController.set_lightbar, h]

/-- Concrete instantiation of `set_lightbar_dedup`: from a fresh USB
controller, two calls with color (1, 2, 3) and a succeeding write leave
`send_count` at 1 with the second call not writing. -/
theorem set_lightbar_dedup_witness :
    ((1, 2, 3) : Nat × Nat × Nat) ≠ (DualSenseController.new true).last_color ∧
      (((DualSenseController.new true).set_lightbar true 1 2 3).ctrl.set_lightbar
          true 1 2 3).wrote = false ∧
      (((DualSenseController.new true).set_lightbar true 1 2 3).ctrl.set_lightbar
          true 1 2 3).ctrl.send_count = (DualSenseController.new true).send_count + 1 :=
  ⟨by decide,
    ((set_lightbar_dedup (DualSenseController.new true) true 1 2 3).2 (by decide)).2.2.1,
    ((set_lightbar_dedup (DualSenseController.new true) true 1 2 3).2 (by decide)).2.2.2.2.1⟩

/-- Claim C6: when the transport write fails, `set_lightbar` returns the
error, increments `error_count` by exactly 1, leaves `send_count` and
the tracked last-applied color unchanged, and a subsequent call with the
same color attempts another write instead of being skipped. -/
theorem set_lightbar_write_failure (c : DualSenseController) (r g b : Nat)
    (hne : (r, g, b) ≠ c.last_color) :
    (c.set_lightbar false r g b).ok = false ∧
    (c.set_lightbar false r g b).wrote = true ∧
    (c.set_lightbar false r g b).ctrl.error_count = c.error_count + 1 ∧
    (c.set_lightbar false r g b).ctrl.send_count = c.send_count ∧
    (c.set_lightbar false r g b).ctrl.last_color = c.last_color ∧
    ∀ w, ((c.set_lightbar false r g b).ctrl.set_lightbar w r g b).wrote = true := by
  simp [DualSenseController.set_lightbar, hne]

/-- Concrete instantiation of `set_lightbar_write_failure`: from a fresh
Bluetooth controller, a failed write of (5, 6, 7) leaves the counters at
(sent, errors) = (0, 1) and the retry attempts a write. -/
theorem set_lightbar_write_failure_witness :
    (((DualSenseController.new false).set_lightbar false 5 6 7).ctrl.error_count
        = (DualSenseController.new false).error_count + 1 ∧
      (((DualSenseController.new false).set_lightbar false 5 6 7).ctrl.set_lightbar
        true 5 6 7).wrote = true) :=
  ⟨(set_lightbar_write_failure (DualSenseController.new false) 5 6 7 (by decide)).2.2.1,
    (set_lightbar_write_failure (DualSenseController.new false) 5 6 7
      (by decide)).2.2.2.2.2 true⟩

lemma set_lightbar_counters_mono (c : DualSenseController) (w : Bool) (r g b : Nat) :
    c.send_count ≤ (c.set_lightbar w r g b).ctrl.send_count ∧
    c.error_count ≤ (c.set_lightbar w r g b).ctrl.error_count := by
  unfold DualSenseController.set_lightbar
  by_cases h : (r, g, b) = c.last_color
  · simp [h]
  · cases w <;> simp [h]

/-- Claim C8: across every sequence of `set_lightbar` calls the `sent`
and `errors` counters never decrease, and `get_stats` is a pure
read-only snapshot of the current counter values. -/
theorem stats_monotone (c : DualSenseController) (calls : List (Bool × Nat × Nat × Nat)) :
    c.send_count ≤ (runCalls c calls).send_count ∧
    c.error_count ≤ (runCalls c calls).error_count ∧
    (runCalls c calls).get_stats
      = ((runCalls c calls).send_count, (runCalls c calls).error_count) := by
  refine ⟨?_, ?_, rfl⟩ <;>
  · induction calls generalizing c with
    | nil => exact Nat.le_refl _
    | cons hd tl ih =>
      obtain ⟨w, r, g, b⟩ := hd
      refine Nat.le_trans ?_ (ih ((c.set_lightbar w r g b).ctrl))
      first
      | exact (set_lightbar_counters_mono c w r g b).1
      | exact (set_lightbar_counters_mono c w r g b).2

/-- Claim C10: a freshly constructed session tracks (0, 0, 0) as the
last-applied color, so the very first call with color (0, 0, 0) returns
`Ok` without any transport write and leaves both counters at 0. -/
theorem new_first_black_skipped (usb w : Bool) :
    (DualSenseController.new usb).last_color = (0, 0, 0) ∧
    (DualSenseController.new usb).set_lightbar w 0 0 0
      = ⟨DualSenseController.new usb, true, false, none⟩ ∧
    (DualSenseController.new usb).get_stats = (0, 0) := by
  refine ⟨rfl, ?_, rfl⟩
  simp [DualSenseController.set_lightbar, DualSenseController.new]

/-- `get_color_name` (src/main.rs lines 184-194); the input is the hue
after the source's `as u32` truncation, and the ranges of the `match`
arms become chained comparisons.  Returns the label together with the
ANSI color code from the `colors` module. -/
def get_color_name (h : Nat) : String × String :=
  if h ≤ 30 then ("Red", "\x1b[31m")
  else if h ≤ 90 then ("Yellow", "\x1b[33m")
  else if h ≤ 150 then ("Green", "\x1b[32m")
  else if h ≤ 210 then ("Cyan", "\x1b[36m")
  else if h ≤ 270 then ("Blue", "\x1b[34m")
  else if h ≤ 330 then ("Magenta", "\x1b[35m")
  else ("Red", "\x1b[31m")

/-- Claim C9: for every hue below 360 the color-band label is Red on
[0,30], Yellow on [31,90], Green on [91,150], Cyan on [151,210], Blue on
[211,270], Magenta on [271,330] and Red again on [331,360). -/
theorem get_color_name_bands (h : Nat) (hlt : h < 360) :
    (h ≤ 30 → (get_color_name h).1 = "Red") ∧
    (31 ≤ h → h ≤ 90 → (get_color_name h).1 = "Yellow") ∧
    (91 ≤ h → h ≤ 150 → (get_color_name h).1 = "Green") ∧
    (151 ≤ h → h ≤ 210 → (get_color_name h).1 = "Cyan") ∧
    (211 ≤ h → h ≤ 270 → (get_color_name h).1 = "Blue") ∧
    (271 ≤ h → h ≤ 330 → (get_color_name h).1 = "Magenta") ∧
    (331 ≤ h → (get_color_name h).1 = "Red") := by
  unfold get_color_name
  split_ifs <;>
    refine ⟨?_, ?_, ?_, ?_, ?_, ?_, ?_⟩ <;> intros <;> first | rfl | omega

/-- Concrete instantiation of `get_color_name_bands` at hue 200,
discharging the bound and range hypotheses. -/
theorem get_color_name_bands_witness :
    (200 : Nat) < 360 ∧ 151 ≤ (200 : Nat) ∧ (200 : Nat) ≤ 210 ∧
      (get_color_name 200).1 = "Cyan" :=
  ⟨by decide, by decide, by decide,
    (get_color_name_bands 200 (by decide)).2.2.2.1 (by decide) (by decide)⟩

end DualsenseRainbow
